import Mathlib

/-!
Verification development for `ci/build/docker_image_creator.py`, a script that
builds and tags SageMaker TensorFlow Docker images.  The script is embedded
shallowly: Python string operations become Lean functions on `String`, and the
effectful body of `build_docker_image` becomes a pure function from a `World`
(the observable environment: which paths are files, file contents, HTTP
response bodies, the result of the `glob` call, and subprocess exit codes) to a
trace of `Effect`s together with an optional Python-level exception.
-/

namespace DockerImageCreator

/-- Embedding of Python `s.split(sep)[0]`: the characters before the first
occurrence of `sep` (the whole string when `sep` does not occur). -/
def splitFirst (sep : Char) (s : String) : String :=
  String.mk (s.data.takeWhile (fun a => a != sep))

/-- Embedding of Python `s.split(sep)[-1]` (and of `os.path.basename` for
`sep = '/'`): the characters after the last occurrence of `sep`. -/
def splitLast (sep : Char) (s : String) : String :=
  String.mk ((s.data.reverse.takeWhile (fun a => a != sep)).reverse)

/-- Embedding of Python `s[-1]` on a string known to be non-empty (the script
applies it to `py_v`, which always starts with `"py"`). -/
def lastCharD (s : String) : Char :=
  s.data.getLastD ' '

/-- Embedding of `os.path.join` for the relative second components the script
uses (POSIX). -/
def pathJoin (a b : String) : String := a ++ "/" ++ b

/-- The two hardcoded framework versions that ship no binary
(`['1.4.1', '1.5.0']` in the source). -/
def legacyVersions : List String := ["1.4.1", "1.5.0"]

/-- Line 29 of the source: `py_v = 'py{}'.format(python_version.split('.')[0])`.
The spec names this operation `resolve_python_tag`. -/
def resolve_python_tag (python_version : String) : String :=
  "py" ++ splitFirst '.' python_version

/-- `base_docker_path = os.path.join(main_directory_path, 'docker', framework_version, 'base')`. -/
def baseDockerPath (main_directory_path framework_version : String) : String :=
  pathJoin (pathJoin (pathJoin main_directory_path "docker") framework_version) "base"

/-- `final_docker_path = os.path.join(main_directory_path, 'docker', framework_version, 'final', py_v)`. -/
def finalDockerPath (main_directory_path framework_version py_v : String) : String :=
  pathJoin (pathJoin (pathJoin (pathJoin main_directory_path "docker") framework_version) "final") py_v

/-- Observable actions performed by `build_docker_image`, in program order. -/
inductive Effect where
  | print (msg : String)
  | copyFile (src dst : String)
  | httpGet (url : String)
  | writeFile (path : String) (contents : List Nat)
  | call (cmd : List String) (cwd : String)
  deriving DecidableEq, Repr

/-- The environment the script runs in: `isFile` answers `os.path.isfile`,
`fileContents` gives the bytes of local files, `httpBody` the bytes of
`requests.get(url).content`, `globDist` the result of the
`glob.glob(.../dist/sagemaker_tensorflow_container-*.tar.gz)` call, and
`exitCode` the exit status each `subprocess.call` would return. -/
structure World where
  isFile : String → Bool
  fileContents : String → List Nat
  httpBody : String → List Nat
  globDist : List String
  exitCode : List String → String → Int

/-- Lines 34-43 of the source: the "Get binary" step.  Returns the effects it
performs and `binary_filename` (which the Python code leaves undefined for the
legacy versions, hence the `Option`). -/
def getBinaryStep (framework_version binary_path final_docker_path : String)
    (w : World) : List Effect × Option String :=
  if framework_version ∉ legacyVersions then
    if w.isFile binary_path then
      let binary_filename := splitLast '/' binary_path
      ([Effect.print "Getting binary...",
        Effect.copyFile binary_path (pathJoin final_docker_path binary_filename)],
       some binary_filename)
    else
      let binary_filename := splitLast '/' binary_path
      ([Effect.print "Getting binary...",
        Effect.httpGet binary_path,
        Effect.writeFile (pathJoin final_docker_path binary_filename) (w.httpBody binary_path)],
       some binary_filename)
  else
    ([], none)

/-- Lines 64-66 of the source: the `for tag in final_image_tags` loop appending
`'-t'` and `'{}:{}'.format(final_image_repository, tag)` per tag. -/
def tagArgs (final_image_repository : String) (final_image_tags : List String) :
    List String :=
  final_image_tags.flatMap (fun tag => ["-t", final_image_repository ++ ":" ++ tag])

/-- Lines 63-71 of the source: construction of `final_command_list`. -/
def finalCommandList (docker final_image_repository : String)
    (final_image_tags : List String)
    (framework_version py_v binary_filename processor : String) : List String :=
  [docker, "build"]
    ++ tagArgs final_image_repository final_image_tags
    ++ (if framework_version ∉ legacyVersions then
          ["--build-arg", "py_version=" ++ String.mk [lastCharD py_v],
           "--build-arg", "framework_installable=" ++ binary_filename]
        else [])
    ++ ["-f", "Dockerfile." ++ processor, "."]

/-- Shallow embedding of `build_docker_image` (lines 14-72 of the source).
Returns the trace of effects and `some "IndexError"` when the
`glob.glob(...)[0]` index fails (empty glob result), in which case the trace
stops where the exception is raised; `none` means the function returned
normally.  Subprocess exit codes (`w.exitCode`) are never consulted, mirroring
the source's discarded `subprocess.call` return values. -/
def build_docker_image (framework_version python_version processor binary_path
    final_image_repository : String) (final_image_tags : List String)
    (docker main_directory_path : String) (w : World) :
    List Effect × Option String :=
  let py_v := resolve_python_tag python_version
  let base_docker_path := baseDockerPath main_directory_path framework_version
  let final_docker_path := finalDockerPath main_directory_path framework_version py_v
  let fetch := getBinaryStep framework_version binary_path final_docker_path w
  let image_name :=
    "tensorflow-base:" ++ framework_version ++ "-" ++ processor ++ "-" ++ py_v
  let baseEffects :=
    [Effect.print "Building base image...",
     Effect.call [docker, "build", "-t", image_name,
                  "-f", "Dockerfile." ++ processor, "."] base_docker_path]
  let cloneEffects :=
    [Effect.print "Building final image...",
     Effect.call ["git", "clone", "https://github.com/aws/sagemaker-tensorflow-extensions.git"]
       final_docker_path,
     Effect.call ["python", "setup.py", "sdist"] main_directory_path]
  match w.globDist with
  | [] => (fetch.1 ++ baseEffects ++ cloneEffects, some "IndexError")
  | tar_file :: _ =>
    let tar_filename := splitLast '/' tar_file
    let final_command_list :=
      finalCommandList docker final_image_repository final_image_tags
        framework_version py_v (fetch.2.getD "") processor
    (fetch.1 ++ baseEffects ++ cloneEffects
       ++ [Effect.copyFile tar_file (pathJoin final_docker_path tar_filename),
           Effect.call final_command_list final_docker_path],
     none)

/-- The process exit status: `0` on a normal return, nonzero when a Python
exception escapes (the interpreter exits with status 1 on an unhandled
exception). -/
def processExit (r : List Effect × Option String) : Nat :=
  match r.2 with
  | none => 0
  | some _ => 1

/-- Filesystem semantics of a single effect: `copyFile` duplicates the current
contents of `src` at `dst`; `writeFile` stores the given bytes. -/
def applyEffect (fs : String → List Nat) : Effect → (String → List Nat)
  | Effect.copyFile src dst => fun p => if p = dst then fs src else fs p
  | Effect.writeFile path c => fun p => if p = path then c else fs p
  | _ => fs

/-- Run a trace of effects over a filesystem (a map from path to bytes). -/
def runEffects (fs : String → List Nat) : List Effect → (String → List Nat)
  | [] => fs
  | e :: es => runEffects (applyEffect fs e) es

/-- The subprocess invocations of a trace, in order, as (command, cwd) pairs. -/
def callsOf : List Effect → List (List String × String)
  | [] => []
  | Effect.call c d :: es => (c, d) :: callsOf es
  | _ :: es => callsOf es

/-- Embedding of Python string indexing `s[i]`, which raises `IndexError` when
out of range. -/
def pyStrIndex (s : String) (i : Nat) : Except String Char :=
  if h : i < s.data.length then Except.ok (s.data.get ⟨i, h⟩)
  else Except.error "IndexError"

/-- Lines 90-93 of the source (`main`): `final_image_tags` is the parsed list
when non-empty (Python truthiness of the list), otherwise the single default
tag `'{}-{}-py{}'.format(framework_version, processor_type, python_version[0])`. -/
def resolveFinalTags (framework_version processor_type python_version : String)
    (final_image_tags : List String) : Except String (List String) :=
  if final_image_tags ≠ [] then Except.ok final_image_tags
  else
    (pyStrIndex python_version 0).map
      (fun c => [framework_version ++ "-" ++ processor_type ++ "-py" ++ String.mk [c]])

/-- A concrete world for the spec's first scenario: `/tmp/bin.whl` exists as a
local file and the sdist glob finds one archive. -/
def w0 : World where
  isFile := fun p => p == "/tmp/bin.whl"
  fileContents := fun p => if p = "/tmp/bin.whl" then [1, 2, 3] else []
  httpBody := fun _ => [9]
  globDist := ["/root/dist/sagemaker_tensorflow_container-1.0.0.tar.gz"]
  exitCode := fun _ _ => 0

/-- A concrete world where nothing is a local file (URL fetch branch) and the
sdist glob finds one archive. -/
def w1 : World where
  isFile := fun _ => false
  fileContents := fun _ => []
  httpBody := fun u => if u = "https://host/path/tf.whl" then [4, 5] else []
  globDist := ["/root/dist/sagemaker_tensorflow_container-1.0.0.tar.gz"]
  exitCode := fun _ _ => 1

/-- A concrete world whose sdist glob matches nothing. -/
def w2 : World where
  isFile := fun _ => false
  fileContents := fun _ => []
  httpBody := fun _ => []
  globDist := []
  exitCode := fun _ _ => 0

/-! ### Helper lemmas -/

theorem takeWhile_append_eq {p : Char → Bool} :
    ∀ (l1 : List Char) (c : Char) (l2 : List Char),
      (∀ a ∈ l1, p a = true) → p c = false →
      (l1 ++ c :: l2).takeWhile p = l1 := by
  intro l1 c l2 h1 hc
  induction l1 with
  | nil => simp [List.takeWhile, hc]
  | cons a l ih =>
    have ha : p a = true := h1 a (List.mem_cons_self a l)
    simp only [List.cons_append, List.takeWhile, ha]
    have := ih (fun b hb => h1 b (List.mem_cons_of_mem a hb))
    simp [this]

/-- `split('.')[0]` recovers the major component: for a version string of the
form `X ++ "." ++ rest` with no `'.'` inside `X`, the part before the first
`'.'` is exactly `X`. -/
theorem splitFirst_append (X rest : String) (h : '.' ∉ X.data) :
    splitFirst '.' (X ++ "." ++ rest) = X := by
  apply String.ext
  show ((X ++ "." ++ rest).data.takeWhile fun a => a != '.') = X.data
  have hdata : (X ++ "." ++ rest).data = X.data ++ '.' :: rest.data := by
    simp [String.data_append]
  rw [hdata]
  exact takeWhile_append_eq X.data '.' rest.data
    (fun a ha => by
      have : a ≠ '.' := fun he => h (he ▸ ha)
      simpa using this)
    (by decide)

theorem callsOf_append (l1 l2 : List Effect) :
    callsOf (l1 ++ l2) = callsOf l1 ++ callsOf l2 := by
  induction l1 with
  | nil => rfl
  | cons e es ih => cases e <;> simp [callsOf, ih]

theorem callsOf_getBinaryStep (framework_version binary_path final_docker_path : String)
    (w : World) :
    callsOf (getBinaryStep framework_version binary_path final_docker_path w).1 = [] := by
  unfold getBinaryStep
  split
  · split <;> rfl
  · rfl

theorem ne_of_data_length_ne (s t : String) (h : s.data.length ≠ t.data.length) :
    s ≠ t := fun he => h (by rw [he])

theorem colon_append_ne (r t : String) : r ++ ":" ++ t ≠ "-t" := by
  intro he
  have : ':' ∈ (r ++ ":" ++ t).data := by
    simp [String.data_append]
  rw [he] at this
  simp at this

theorem colon_append_ne_build_arg (r t : String) : r ++ ":" ++ t ≠ "--build-arg" := by
  intro he
  have : ':' ∈ (r ++ ":" ++ t).data := by
    simp [String.data_append]
  rw [he] at this
  simp at this

theorem mem_tagArgs {x repo : String} {tags : List String}
    (hx : x ∈ tagArgs repo tags) : x = "-t" ∨ ∃ t, x = repo ++ ":" ++ t := by
  simp only [tagArgs, List.mem_flatMap] at hx
  obtain ⟨t, -, hm⟩ := hx
  simp only [List.mem_cons, List.mem_singleton] at hm
  rcases hm with h | h | h
  · exact Or.inl h
  · exact Or.inr ⟨t, h⟩
  · exact absurd h (by simp)

theorem count_tagArgs (repo : String) (tags : List String) :
    (tagArgs repo tags).count "-t" = tags.length := by
  induction tags with
  | nil => rfl
  | cons t ts ih =>
    have hne : (repo ++ ":" ++ t) ≠ "-t" := colon_append_ne repo t
    simp only [tagArgs, List.flatMap_cons] at ih ⊢
    simp [List.count_append, List.count_cons, hne, ih]

theorem data_py_append (X : String) : ("py" ++ X).data = 'p' :: 'y' :: X.data := by
  rw [String.data_append]; rfl

/-! ### Claim theorems -/

/-- C1, counterexample: the claim says that for a version string of the form
`X.Y.Z` the derived tag is `"py"` followed by the FIRST CHARACTER of `X`.  For
`X = "10"`, `rest = "0.0"` (i.e. `python_version = "10.0.0"`), the code's tag
is `"py10"`, not `"py"` followed by the first character `'1'` of the major
component. -/
theorem C1_counterexample :
    resolve_python_tag ("10" ++ "." ++ "0.0") = "py10" ∧
    resolve_python_tag ("10" ++ "." ++ "0.0") ≠ "py" ++ String.mk ["10".data.headD ' '] := by
  decide

/-- C1, amended: for every python version string of the form `X ++ "." ++ rest`
(with `'.'` not occurring in the major component `X`), the derived Python tag
equals `"py"` followed by the ENTIRE major component `X` — which coincides with
`"py" + X[0]` exactly when `X` is a single character. -/
theorem C1_amended_resolve_python_tag (X rest : String) (h : '.' ∉ X.data) :
    resolve_python_tag (X ++ "." ++ rest) = "py" ++ X := by
  unfold resolve_python_tag
  rw [splitFirst_append X rest h]

/-- Witness for C1's amended theorem at `X = "3"`, `rest = "6.5"`. -/
theorem C1_amended_resolve_python_tag_witness :
    '.' ∉ ("3" : String).data ∧ resolve_python_tag ("3" ++ "." ++ "6.5") = "py" ++ "3" :=
  ⟨by decide, C1_amended_resolve_python_tag "3" "6.5" (by decide)⟩

/-- C10: the tag used in paths and the base image name is `"py" ++ X` for the
full major component `X`, the default final tag uses the first character of the
python version, and the `py_version` build-arg uses the last character of the
path tag; all three designate the same major exactly when `X` is a single
character.  Concretely, for `"10.0.0"` the path/base tag is `"py10"`, the
default final tag ends in `"py1"`, and the build-arg value is `'0'`. -/
theorem C10_python_tag_agreement (X rest : String) (hdot : '.' ∉ X.data)
    (hne : X.data ≠ []) :
    ((resolve_python_tag (X ++ "." ++ rest)
        = "py" ++ String.mk [(X ++ "." ++ rest).data.headD ' '] ∧
      lastCharD (resolve_python_tag (X ++ "." ++ rest))
        = (X ++ "." ++ rest).data.headD ' ')
     ↔ X.data.length = 1) ∧
    resolve_python_tag "10.0.0" = "py10" ∧
    resolveFinalTags "1.8.0" "cpu" "10.0.0" [] = Except.ok ["1.8.0-cpu-py1"] ∧
    String.mk [lastCharD (resolve_python_tag "10.0.0")] = "0" := by
  refine ⟨?_, by decide, by rfl, by decide⟩
  obtain ⟨a, l, hX⟩ := List.exists_cons_of_ne_nil hne
  have hpy : resolve_python_tag (X ++ "." ++ rest) = "py" ++ X := by
    unfold resolve_python_tag
    rw [splitFirst_append X rest hdot]
  have hhead : (X ++ "." ++ rest).data.headD ' ' = a := by
    simp [String.data_append, hX]
  rw [hpy, hhead]
  constructor
  · rintro ⟨h1, -⟩
    have h2 := congrArg String.data h1
    rw [data_py_append, data_py_append] at h2
    simp only [List.cons.injEq, true_and] at h2
    rw [h2]
    rfl
  · intro hlen
    have hl : l = [] := by
      rw [hX] at hlen
      simpa using hlen
    subst hl
    have hXa : X = String.mk [a] := String.ext hX
    constructor
    · rw [hXa]
    · rw [hXa]
      show (("py" ++ String.mk [a]).data).getLastD ' ' = a
      rw [data_py_append]
      rfl

/-- Witness for C10 at `X = "10"`, `rest = "0.0"`. -/
theorem C10_python_tag_agreement_witness :
    '.' ∉ ("10" : String).data ∧ ("10" : String).data ≠ [] ∧
    (((resolve_python_tag ("10" ++ "." ++ "0.0")
          = "py" ++ String.mk [("10" ++ "." ++ "0.0").data.headD ' '] ∧
        lastCharD (resolve_python_tag ("10" ++ "." ++ "0.0"))
          = ("10" ++ "." ++ "0.0").data.headD ' ')
       ↔ ("10" : String).data.length = 1) ∧
      resolve_python_tag "10.0.0" = "py10" ∧
      resolveFinalTags "1.8.0" "cpu" "10.0.0" [] = Except.ok ["1.8.0-cpu-py1"] ∧
      String.mk [lastCharD (resolve_python_tag "10.0.0")] = "0") :=
  ⟨by decide, by decide, C10_python_tag_agreement "10" "0.0" (by decide) (by decide)⟩

/-- C2: subprocess exit codes are never inspected — two worlds that differ only
in the exit codes of the invoked external commands (container engine build,
clone and packaging steps) produce identical traces and results — and whenever
the Python-level steps succeed (the sdist glob finds an archive, the only
fallible in-process step), the process exit status is 0. -/
theorem C2_exit_status_ignores_command_failures
    (framework_version python_version processor binary_path
      final_image_repository : String) (final_image_tags : List String)
    (docker main_directory_path : String) (w w' : World)
    (hf : w.isFile = w'.isFile) (_hc : w.fileContents = w'.fileContents)
    (hh : w.httpBody = w'.httpBody) (hg : w.globDist = w'.globDist)
    (hne : w.globDist ≠ []) :
    build_docker_image framework_version python_version processor binary_path
        final_image_repository final_image_tags docker main_directory_path w
      = build_docker_image framework_version python_version processor binary_path
          final_image_repository final_image_tags docker main_directory_path w' ∧
    processExit (build_docker_image framework_version python_version processor binary_path
        final_image_repository final_image_tags docker main_directory_path w) = 0 := by
  constructor
  · simp only [build_docker_image, getBinaryStep, hf, hh, hg]
  · rcases hgl : w.globDist with _ | ⟨t, ts⟩
    · exact absurd hgl hne
    · simp [build_docker_image, hgl, processExit]

/-- Witness for C2 with both worlds equal to `w0`. -/
theorem C2_exit_status_ignores_command_failures_witness :
    w0.globDist ≠ [] ∧
    (build_docker_image "1.8.0" "3.6.5" "cpu" "/tmp/bin.whl" "preprod-tensorflow"
        ["1.8.0-cpu-py3"] "docker" "/root" w0
      = build_docker_image "1.8.0" "3.6.5" "cpu" "/tmp/bin.whl" "preprod-tensorflow"
          ["1.8.0-cpu-py3"] "docker" "/root" w0 ∧
    processExit (build_docker_image "1.8.0" "3.6.5" "cpu" "/tmp/bin.whl" "preprod-tensorflow"
        ["1.8.0-cpu-py3"] "docker" "/root" w0) = 0) :=
  ⟨by decide,
   C2_exit_status_ignores_command_failures "1.8.0" "3.6.5" "cpu" "/tmp/bin.whl"
     "preprod-tensorflow" ["1.8.0-cpu-py3"] "docker" "/root" w0 w0 rfl rfl rfl rfl (by decide)⟩

/-- C3: for the legacy framework versions `"1.4.1"` and `"1.5.0"`, the binary
fetch step performs nothing at all regardless of `binary_path` (no local copy,
no HTTP GET, no write into the final image directory), and the whole run
performs no HTTP GET and writes no downloaded file. -/
theorem C3_legacy_versions_skip_fetch
    (framework_version python_version processor binary_path
      final_image_repository : String) (final_image_tags : List String)
    (docker main_directory_path : String) (w : World)
    (hleg : framework_version ∈ legacyVersions) :
    (∀ final_docker_path,
      getBinaryStep framework_version binary_path final_docker_path w = ([], none)) ∧
    (∀ url, Effect.httpGet url ∉
      (build_docker_image framework_version python_version processor binary_path
        final_image_repository final_image_tags docker main_directory_path w).1) ∧
    (∀ p c, Effect.writeFile p c ∉
      (build_docker_image framework_version python_version processor binary_path
        final_image_repository final_image_tags docker main_directory_path w).1) := by
  have hfetch : ∀ fp, getBinaryStep framework_version binary_path fp w = ([], none) := by
    intro fp
    simp [getBinaryStep, hleg]
  refine ⟨hfetch, ?_, ?_⟩
  · intro url
    rcases hgl : w.globDist with _ | ⟨t, ts⟩ <;>
      simp [build_docker_image, hgl, hfetch]
  · intro p c
    rcases hgl : w.globDist with _ | ⟨t, ts⟩ <;>
      simp [build_docker_image, hgl, hfetch]

/-- Witness for C3 at the legacy version `"1.4.1"` in world `w0`. -/
theorem C3_legacy_versions_skip_fetch_witness :
    ("1.4.1" : String) ∈ legacyVersions ∧
    ((∀ final_docker_path,
      getBinaryStep "1.4.1" "None" final_docker_path w0 = ([], none)) ∧
    (∀ url, Effect.httpGet url ∉
      (build_docker_image "1.4.1" "2.7.0" "cpu" "None" "preprod-tensorflow"
        ["1.4.1-cpu-py2"] "docker" "/root" w0).1) ∧
    (∀ p c, Effect.writeFile p c ∉
      (build_docker_image "1.4.1" "2.7.0" "cpu" "None" "preprod-tensorflow"
        ["1.4.1-cpu-py2"] "docker" "/root" w0).1)) :=
  ⟨by decide,
   C3_legacy_versions_skip_fetch "1.4.1" "2.7.0" "cpu" "None" "preprod-tensorflow"
     ["1.4.1-cpu-py2"] "docker" "/root" w0 (by decide)⟩

/-- C4: for a non-legacy version, when `binary_path` is an existing local file,
the run copies it into the final image directory under its basename, and after
the fetch step the destination's bytes equal the source's bytes. -/
theorem C4_local_binary_round_trip
    (framework_version python_version processor binary_path
      final_image_repository : String) (final_image_tags : List String)
    (docker main_directory_path : String) (w : World)
    (hleg : framework_version ∉ legacyVersions)
    (hfile : w.isFile binary_path = true) :
    Effect.copyFile binary_path
        (pathJoin
          (finalDockerPath main_directory_path framework_version
            (resolve_python_tag python_version))
          (splitLast '/' binary_path))
      ∈ (build_docker_image framework_version python_version processor binary_path
          final_image_repository final_image_tags docker main_directory_path w).1 ∧
    runEffects w.fileContents
        (getBinaryStep framework_version binary_path
          (finalDockerPath main_directory_path framework_version
            (resolve_python_tag python_version)) w).1
        (pathJoin
          (finalDockerPath main_directory_path framework_version
            (resolve_python_tag python_version))
          (splitLast '/' binary_path))
      = w.fileContents binary_path ∧
    (getBinaryStep framework_version binary_path
        (finalDockerPath main_directory_path framework_version
          (resolve_python_tag python_version)) w).2
      = some (splitLast '/' binary_path) := by
  have hstep : ∀ fp, getBinaryStep framework_version binary_path fp w =
      ([Effect.print "Getting binary...",
        Effect.copyFile binary_path (pathJoin fp (splitLast '/' binary_path))],
       some (splitLast '/' binary_path)) := by
    intro fp
    simp [getBinaryStep, hleg, hfile]
  refine ⟨?_, ?_, by rw [hstep]⟩
  · rcases hgl : w.globDist with _ | ⟨t, ts⟩ <;>
      simp [build_docker_image, hgl, hstep]
  · rw [hstep]
    simp [runEffects, applyEffect]

/-- Witness for C4: version `"1.8.0"`, local file `"/tmp/bin.whl"`, world `w0`. -/
theorem C4_local_binary_round_trip_witness :
    ("1.8.0" : String) ∉ legacyVersions ∧ w0.isFile "/tmp/bin.whl" = true ∧
    (Effect.copyFile "/tmp/bin.whl"
        (pathJoin
          (finalDockerPath "/root" "1.8.0" (resolve_python_tag "3.6.5"))
          (splitLast '/' "/tmp/bin.whl"))
      ∈ (build_docker_image "1.8.0" "3.6.5" "cpu" "/tmp/bin.whl" "preprod-tensorflow"
          ["1.8.0-cpu-py3"] "docker" "/root" w0).1 ∧
    runEffects w0.fileContents
        (getBinaryStep "1.8.0" "/tmp/bin.whl"
          (finalDockerPath "/root" "1.8.0" (resolve_python_tag "3.6.5")) w0).1
        (pathJoin
          (finalDockerPath "/root" "1.8.0" (resolve_python_tag "3.6.5"))
          (splitLast '/' "/tmp/bin.whl"))
      = w0.fileContents "/tmp/bin.whl" ∧
    (getBinaryStep "1.8.0" "/tmp/bin.whl"
        (finalDockerPath "/root" "1.8.0" (resolve_python_tag "3.6.5")) w0).2
      = some (splitLast '/' "/tmp/bin.whl")) :=
  ⟨by decide, by decide,
   C4_local_binary_round_trip "1.8.0" "3.6.5" "cpu" "/tmp/bin.whl" "preprod-tensorflow"
     ["1.8.0-cpu-py3"] "docker" "/root" w0 (by decide) (by decide)⟩

/-- C5: for a non-legacy version, when `binary_path` is not an existing local
file it is treated as a URL: the run performs an HTTP GET on it and writes the
full response body into the final image directory under the URL's final path
segment. -/
theorem C5_url_download
    (framework_version python_version processor binary_path
      final_image_repository : String) (final_image_tags : List String)
    (docker main_directory_path : String) (w : World)
    (hleg : framework_version ∉ legacyVersions)
    (hfile : w.isFile binary_path = false) :
    Effect.httpGet binary_path
      ∈ (build_docker_image framework_version python_version processor binary_path
          final_image_repository final_image_tags docker main_directory_path w).1 ∧
    Effect.writeFile
        (pathJoin
          (finalDockerPath main_directory_path framework_version
            (resolve_python_tag python_version))
          (splitLast '/' binary_path))
        (w.httpBody binary_path)
      ∈ (build_docker_image framework_version python_version processor binary_path
          final_image_repository final_image_tags docker main_directory_path w).1 ∧
    runEffects w.fileContents
        (getBinaryStep framework_version binary_path
          (finalDockerPath main_directory_path framework_version
            (resolve_python_tag python_version)) w).1
        (pathJoin
          (finalDockerPath main_directory_path framework_version
            (resolve_python_tag python_version))
          (splitLast '/' binary_path))
      = w.httpBody binary_path ∧
    (getBinaryStep framework_version binary_path
        (finalDockerPath main_directory_path framework_version
          (resolve_python_tag python_version)) w).2
      = some (splitLast '/' binary_path) := by
  have hstep : ∀ fp, getBinaryStep framework_version binary_path fp w =
      ([Effect.print "Getting binary...",
        Effect.httpGet binary_path,
        Effect.writeFile (pathJoin fp (splitLast '/' binary_path)) (w.httpBody binary_path)],
       some (splitLast '/' binary_path)) := by
    intro fp
    simp [getBinaryStep, hleg, hfile]
  refine ⟨?_, ?_, ?_, by rw [hstep]⟩
  · rcases hgl : w.globDist with _ | ⟨t, ts⟩ <;>
      simp [build_docker_image, hgl, hstep]
  · rcases hgl : w.globDist with _ | ⟨t, ts⟩ <;>
      simp [build_docker_image, hgl, hstep]
  · rw [hstep]
    simp [runEffects, applyEffect]

/-- Witness for C5: version `"1.8.0"`, URL `"https://host/path/tf.whl"`, world
`w1` (in which nothing is a local file). -/
theorem C5_url_download_witness :
    ("1.8.0" : String) ∉ legacyVersions ∧
    w1.isFile "https://host/path/tf.whl" = false ∧
    (Effect.httpGet "https://host/path/tf.whl"
      ∈ (build_docker_image "1.8.0" "3.6.5" "cpu" "https://host/path/tf.whl"
          "preprod-tensorflow" ["1.8.0-cpu-py3"] "docker" "/root" w1).1 ∧
    Effect.writeFile
        (pathJoin
          (finalDockerPath "/root" "1.8.0" (resolve_python_tag "3.6.5"))
          (splitLast '/' "https://host/path/tf.whl"))
        (w1.httpBody "https://host/path/tf.whl")
      ∈ (build_docker_image "1.8.0" "3.6.5" "cpu" "https://host/path/tf.whl"
          "preprod-tensorflow" ["1.8.0-cpu-py3"] "docker" "/root" w1).1 ∧
    runEffects w1.fileContents
        (getBinaryStep "1.8.0" "https://host/path/tf.whl"
          (finalDockerPath "/root" "1.8.0" (resolve_python_tag "3.6.5")) w1).1
        (pathJoin
          (finalDockerPath "/root" "1.8.0" (resolve_python_tag "3.6.5"))
          (splitLast '/' "https://host/path/tf.whl"))
      = w1.httpBody "https://host/path/tf.whl" ∧
    (getBinaryStep "1.8.0" "https://host/path/tf.whl"
        (finalDockerPath "/root" "1.8.0" (resolve_python_tag "3.6.5")) w1).2
      = some (splitLast '/' "https://host/path/tf.whl")) :=
  ⟨by decide, by decide,
   C5_url_download "1.8.0" "3.6.5" "cpu" "https://host/path/tf.whl" "preprod-tensorflow"
     ["1.8.0-cpu-py3"] "docker" "/root" w1 (by decide) (by decide)⟩

/-- C6: when `--final-image-tags` is omitted (empty parsed list), exactly one
tag is produced: `framework_version ++ "-" ++ processor ++ "-py"` followed by
the first character of the python version string. -/
theorem C6_default_tag (framework_version processor_type python_version : String)
    (h : python_version.data ≠ []) :
    resolveFinalTags framework_version processor_type python_version []
      = Except.ok [framework_version ++ "-" ++ processor_type ++ "-py"
          ++ String.mk [python_version.data.head h]] ∧
    ∀ l, resolveFinalTags framework_version processor_type python_version []
        = Except.ok l → l.length = 1 := by
  have hok : resolveFinalTags framework_version processor_type python_version []
      = Except.ok [framework_version ++ "-" ++ processor_type ++ "-py"
          ++ String.mk [python_version.data.head h]] := by
    obtain ⟨a, l, hX⟩ := List.exists_cons_of_ne_nil h
    have hlt : 0 < python_version.data.length := by
      rw [hX]; simp
    simp only [resolveFinalTags, pyStrIndex, if_neg, dif_pos hlt]
    simp [hX, Except.map]
  refine ⟨hok, ?_⟩
  intro l hl
  rw [hok] at hl
  cases hl
  rfl

/-- Witness for C6 at `("1.8.0", "cpu", "3.6.5")`. -/
theorem C6_default_tag_witness :
    ("3.6.5" : String).data ≠ [] ∧
    (resolveFinalTags "1.8.0" "cpu" "3.6.5" []
      = Except.ok ["1.8.0" ++ "-" ++ "cpu" ++ "-py"
          ++ String.mk [("3.6.5" : String).data.head (by decide)]] ∧
    ∀ l, resolveFinalTags "1.8.0" "cpu" "3.6.5" [] = Except.ok l → l.length = 1) :=
  ⟨by decide, C6_default_tag "1.8.0" "cpu" "3.6.5" (by decide)⟩

theorem append_ne_short (s t u : String) (h : u.data.length < s.data.length) :
    s ++ t ≠ u := by
  intro he
  have h2 := congrArg (fun x => x.data.length) he
  simp only [String.data_append, List.length_append] at h2
  omega

theorem dockerfile_ne_build_arg (processor : String) :
    "Dockerfile." ++ processor ≠ "--build-arg" := by
  intro he
  have h2 := congrArg String.data he
  rw [String.data_append] at h2
  have h3 : ('D' : Char) = '-' := congrArg (fun l => l.headD ' ') h2
  exact absurd h3 (by decide)

theorem t_flag_not_mem_tail (framework_version py_v binary_filename processor : String) :
    "-t" ∉ ((if framework_version ∉ legacyVersions then
        ["--build-arg", "py_version=" ++ String.mk [lastCharD py_v],
         "--build-arg", "framework_installable=" ++ binary_filename]
      else [])
      ++ ["-f", "Dockerfile." ++ processor, "."]) := by
  intro hmem
  rw [List.mem_append] at hmem
  rcases hmem with hmem | hmem
  · split at hmem
    · simp only [List.mem_cons, List.not_mem_nil] at hmem
      rcases hmem with h | h | h | h
      · exact absurd h (by decide)
      · exact append_ne_short "py_version=" _ "-t" (by decide) h.symm
      · exact absurd h (by decide)
      · rcases h with h | h
        · exact append_ne_short "framework_installable=" _ "-t" (by decide) h.symm
        · exact h
    · simp at hmem
  · simp only [List.mem_cons, List.not_mem_nil] at hmem
    rcases hmem with h | h | h
    · exact absurd h (by decide)
    · exact append_ne_short "Dockerfile." _ "-t" (by decide) h.symm
    · rcases h with h | h
      · exact absurd h (by decide)
      · exact h

theorem build_arg_not_mem_legacy (docker final_image_repository : String)
    (final_image_tags : List String)
    (framework_version py_v binary_filename processor : String)
    (hdocker : docker ≠ "--build-arg") (hleg : framework_version ∈ legacyVersions) :
    "--build-arg" ∉ finalCommandList docker final_image_repository final_image_tags
      framework_version py_v binary_filename processor := by
  intro hmem
  have hleg' : ¬ framework_version ∉ legacyVersions := fun h => h hleg
  simp only [finalCommandList, if_neg hleg', List.append_nil, List.mem_append,
    List.mem_cons, List.not_mem_nil] at hmem
  rcases hmem with ((h | h | h) | h) | h | h | h
  · exact hdocker h.symm
  · exact absurd h (by decide)
  · exact h
  · rcases mem_tagArgs h with h | ⟨t, h⟩
    · exact absurd h (by decide)
    · exact colon_append_ne_build_arg final_image_repository t h.symm
  · exact absurd h (by decide)
  · exact dockerfile_ne_build_arg processor h.symm
  · rcases h with h | h
    · exact absurd h (by decide)
    · exact h

/-- C7: for N explicit tags, the final container-build invocation contains the
block of N `-t repository:tag` pairs in the supplied order (nothing else in the
command is `-t`), its `-t` count is exactly N, and that invocation appears in
the run's trace. -/
theorem C7_explicit_tag_pairs
    (framework_version python_version processor binary_path
      final_image_repository : String) (final_image_tags : List String)
    (docker main_directory_path : String) (w : World)
    (hdocker : docker ≠ "-t") (hne : w.globDist ≠ []) :
    Effect.call
        (finalCommandList docker final_image_repository final_image_tags framework_version
          (resolve_python_tag python_version)
          ((getBinaryStep framework_version binary_path
              (finalDockerPath main_directory_path framework_version
                (resolve_python_tag python_version)) w).2.getD "")
          processor)
        (finalDockerPath main_directory_path framework_version
          (resolve_python_tag python_version))
      ∈ (build_docker_image framework_version python_version processor binary_path
          final_image_repository final_image_tags docker main_directory_path w).1 ∧
    (∀ binary_filename,
      (∃ pre post,
        finalCommandList docker final_image_repository final_image_tags framework_version
            (resolve_python_tag python_version) binary_filename processor
          = pre ++ tagArgs final_image_repository final_image_tags ++ post ∧
        "-t" ∉ pre ∧ "-t" ∉ post) ∧
      (finalCommandList docker final_image_repository final_image_tags framework_version
          (resolve_python_tag python_version) binary_filename processor).count "-t"
        = final_image_tags.length) := by
  constructor
  · rcases hgl : w.globDist with _ | ⟨t, ts⟩
    · exact absurd hgl hne
    · simp [build_docker_image, hgl]
  · intro binary_filename
    have hpre : "-t" ∉ [docker, "build"] := by
      intro h
      simp only [List.mem_cons, List.not_mem_nil, or_false] at h
      rcases h with h | h
      · exact hdocker h.symm
      · exact absurd h (by decide)
    have hpost := t_flag_not_mem_tail framework_version
      (resolve_python_tag python_version) binary_filename processor
    constructor
    · refine ⟨[docker, "build"],
        (if framework_version ∉ legacyVersions then
          ["--build-arg",
           "py_version=" ++ String.mk [lastCharD (resolve_python_tag python_version)],
           "--build-arg", "framework_installable=" ++ binary_filename]
         else [])
          ++ ["-f", "Dockerfile." ++ processor, "."], ?_, hpre, hpost⟩
      simp [finalCommandList, List.append_assoc]
    · have hcnt : ∀ (l1 l2 : List String), "-t" ∉ l1 → "-t" ∉ l2 →
          (l1 ++ tagArgs final_image_repository final_image_tags ++ l2).count "-t"
            = final_image_tags.length := by
        intro l1 l2 h1 h2
        rw [List.count_append, List.count_append,
          List.count_eq_zero_of_not_mem h1, List.count_eq_zero_of_not_mem h2,
          count_tagArgs]
        omega
      have := hcnt [docker, "build"]
        ((if framework_version ∉ legacyVersions then
          ["--build-arg",
           "py_version=" ++ String.mk [lastCharD (resolve_python_tag python_version)],
           "--build-arg", "framework_installable=" ++ binary_filename]
         else [])
          ++ ["-f", "Dockerfile." ++ processor, "."]) hpre hpost
      rw [finalCommandList]
      simp only [List.append_assoc] at this ⊢
      exact this

/-- Witness for C7 with two explicit tags in world `w0`. -/
theorem C7_explicit_tag_pairs_witness :
    ("docker" : String) ≠ "-t" ∧ w0.globDist ≠ [] ∧
    (Effect.call
        (finalCommandList "docker" "preprod-tensorflow" ["a", "b"] "1.8.0"
          (resolve_python_tag "3.6.5")
          ((getBinaryStep "1.8.0" "/tmp/bin.whl"
              (finalDockerPath "/root" "1.8.0" (resolve_python_tag "3.6.5")) w0).2.getD "")
          "cpu")
        (finalDockerPath "/root" "1.8.0" (resolve_python_tag "3.6.5"))
      ∈ (build_docker_image "1.8.0" "3.6.5" "cpu" "/tmp/bin.whl" "preprod-tensorflow"
          ["a", "b"] "docker" "/root" w0).1 ∧
    (∀ binary_filename,
      (∃ pre post,
        finalCommandList "docker" "preprod-tensorflow" ["a", "b"] "1.8.0"
            (resolve_python_tag "3.6.5") binary_filename "cpu"
          = pre ++ tagArgs "preprod-tensorflow" ["a", "b"] ++ post ∧
        "-t" ∉ pre ∧ "-t" ∉ post) ∧
      (finalCommandList "docker" "preprod-tensorflow" ["a", "b"] "1.8.0"
          (resolve_python_tag "3.6.5") binary_filename "cpu").count "-t"
        = (["a", "b"] : List String).length)) :=
  ⟨by decide, by decide,
   C7_explicit_tag_pairs "1.8.0" "3.6.5" "cpu" "/tmp/bin.whl" "preprod-tensorflow"
     ["a", "b"] "docker" "/root" w0 (by decide) (by decide)⟩

/-- C8: the final build command carries the `py_version` and
`framework_installable` build arguments exactly when the framework version is
not legacy.  Concretely: for version `"1.8.0"`, python `"3.6.5"`, processor
`"cpu"`, existing local file `"/tmp/bin.whl"` and the default tag, the derived
tag is `"1.8.0-cpu-py3"`, the binary is copied into the final directory as
`bin.whl`, and the final command carries `py_version=3` and
`framework_installable=bin.whl`; for the legacy version `"1.4.1"` the fetch
step does nothing and no invoked command contains `--build-arg`. -/
theorem C8_build_args_iff_not_legacy :
    (∀ (docker final_image_repository : String) (final_image_tags : List String)
        (framework_version py_v binary_filename processor : String),
      docker ≠ "--build-arg" →
      ((∃ pre post,
          finalCommandList docker final_image_repository final_image_tags
              framework_version py_v binary_filename processor
            = pre ++ ["--build-arg", "py_version=" ++ String.mk [lastCharD py_v],
                      "--build-arg", "framework_installable=" ++ binary_filename] ++ post)
        ↔ framework_version ∉ legacyVersions)) ∧
    resolveFinalTags "1.8.0" "cpu" "3.6.5" [] = Except.ok ["1.8.0-cpu-py3"] ∧
    Effect.copyFile "/tmp/bin.whl" (pathJoin (finalDockerPath "/root" "1.8.0" "py3") "bin.whl")
      ∈ (build_docker_image "1.8.0" "3.6.5" "cpu" "/tmp/bin.whl" "preprod-tensorflow"
          ["1.8.0-cpu-py3"] "docker" "/root" w0).1 ∧
    Effect.call (finalCommandList "docker" "preprod-tensorflow" ["1.8.0-cpu-py3"]
        "1.8.0" "py3" "bin.whl" "cpu") (finalDockerPath "/root" "1.8.0" "py3")
      ∈ (build_docker_image "1.8.0" "3.6.5" "cpu" "/tmp/bin.whl" "preprod-tensorflow"
          ["1.8.0-cpu-py3"] "docker" "/root" w0).1 ∧
    "py_version=3" ∈ finalCommandList "docker" "preprod-tensorflow" ["1.8.0-cpu-py3"]
        "1.8.0" "py3" "bin.whl" "cpu" ∧
    "framework_installable=bin.whl" ∈ finalCommandList "docker" "preprod-tensorflow"
        ["1.8.0-cpu-py3"] "1.8.0" "py3" "bin.whl" "cpu" ∧
    getBinaryStep "1.4.1" "None" (finalDockerPath "/root" "1.4.1" "py2") w0 = ([], none) ∧
    (∀ pr ∈ callsOf (build_docker_image "1.4.1" "2.7.0" "cpu" "None" "preprod-tensorflow"
        ["1.4.1-cpu-py2"] "docker" "/root" w0).1, "--build-arg" ∉ pr.1) := by
  refine ⟨?_, by rfl, by decide, by decide, by decide, by decide, by decide, by decide⟩
  intro docker final_image_repository final_image_tags framework_version py_v
    binary_filename processor hdocker
  constructor
  · rintro ⟨pre, post, heq⟩
    by_contra hleg'
    have hmem : "--build-arg" ∈ finalCommandList docker final_image_repository
        final_image_tags framework_version py_v binary_filename processor := by
      rw [heq]
      simp
    exact build_arg_not_mem_legacy docker final_image_repository final_image_tags
      framework_version py_v binary_filename processor hdocker hleg' hmem
  · intro hleg
    refine ⟨[docker, "build"] ++ tagArgs final_image_repository final_image_tags,
      ["-f", "Dockerfile." ++ processor, "."], ?_⟩
    simp [finalCommandList, hleg, List.append_assoc]

/-- Witness for the quantified part of C8 at concrete arguments. -/
theorem C8_build_args_iff_not_legacy_witness :
    ("docker" : String) ≠ "--build-arg" ∧
    ((∃ pre post,
        finalCommandList "docker" "preprod-tensorflow" ["t1"] "1.8.0" "py3" "bin.whl" "cpu"
          = pre ++ ["--build-arg", "py_version=" ++ String.mk [lastCharD "py3"],
                    "--build-arg", "framework_installable=" ++ "bin.whl"] ++ post)
      ↔ ("1.8.0" : String) ∉ legacyVersions) :=
  ⟨by decide,
   C8_build_args_iff_not_legacy.1 "docker" "preprod-tensorflow" ["t1"] "1.8.0" "py3"
     "bin.whl" "cpu" (by decide)⟩

/-- C9: when the sdist glob matches nothing, `build_docker_image` stops with an
unhandled `IndexError` at the `[0]` index, and the only commands ever invoked
are the base image build, the git clone and the sdist packaging — the final
image build never runs. -/
theorem C9_empty_glob_index_error
    (framework_version python_version processor binary_path
      final_image_repository : String) (final_image_tags : List String)
    (docker main_directory_path : String) (w : World)
    (hgl : w.globDist = []) :
    (build_docker_image framework_version python_version processor binary_path
        final_image_repository final_image_tags docker main_directory_path w).2
      = some "IndexError" ∧
    callsOf (build_docker_image framework_version python_version processor binary_path
        final_image_repository final_image_tags docker main_directory_path w).1
      = [([docker, "build", "-t",
           "tensorflow-base:" ++ framework_version ++ "-" ++ processor ++ "-"
             ++ resolve_python_tag python_version,
           "-f", "Dockerfile." ++ processor, "."],
          baseDockerPath main_directory_path framework_version),
         (["git", "clone", "https://github.com/aws/sagemaker-tensorflow-extensions.git"],
          finalDockerPath main_directory_path framework_version
            (resolve_python_tag python_version)),
         (["python", "setup.py", "sdist"], main_directory_path)] := by
  constructor
  · simp [build_docker_image, hgl]
  · simp [build_docker_image, hgl, callsOf_append, callsOf_getBinaryStep, callsOf]

/-- Witness for C9 in the world `w2`, whose sdist glob is empty. -/
theorem C9_empty_glob_index_error_witness :
    w2.globDist = [] ∧
    ((build_docker_image "1.8.0" "3.6.5" "cpu" "https://host/path/tf.whl"
        "preprod-tensorflow" ["1.8.0-cpu-py3"] "docker" "/root" w2).2
      = some "IndexError" ∧
    callsOf (build_docker_image "1.8.0" "3.6.5" "cpu" "https://host/path/tf.whl"
        "preprod-tensorflow" ["1.8.0-cpu-py3"] "docker" "/root" w2).1
      = [(["docker", "build", "-t",
           "tensorflow-base:" ++ "1.8.0" ++ "-" ++ "cpu" ++ "-"
             ++ resolve_python_tag "3.6.5",
           "-f", "Dockerfile." ++ "cpu", "."],
          baseDockerPath "/root" "1.8.0"),
         (["git", "clone", "https://github.com/aws/sagemaker-tensorflow-extensions.git"],
          finalDockerPath "/root" "1.8.0" (resolve_python_tag "3.6.5")),
         (["python", "setup.py", "sdist"], "/root")]) :=
  ⟨by decide,
   C9_empty_glob_index_error "1.8.0" "3.6.5" "cpu" "https://host/path/tf.whl"
     "preprod-tensorflow" ["1.8.0-cpu-py3"] "docker" "/root" w2 (by decide)⟩

end DockerImageCreator
